import Mathlib

/-!
Shallow embedding of the three components of the wanderer-albay-guide-remake
admin/review UI:

* `src/components/admin/ManageAccommodations.tsx`
* `src/components/reviews/ReviewForm.tsx`
* `src/components/reviews/ReviewList.tsx`

Each event handler is modelled as a pure function from its inputs and the
component's local state to the next state, together with the list of remote
requests it issues (its effect trace) and the list of toast notifications it
shows.  Asynchronous remote calls are modelled by passing the eventual
response of the environment as an explicit argument (an `Except`-valued
oracle), so a handler together with the resolution of its remote call is one
state transition; the state returned by the part of a handler that runs
before the response arrives is exposed separately where a claim needs it.

JavaScript string primitives used by the code (`String.prototype.split(",")`,
`String.prototype.trim()`, stable `Array.prototype.sort` with a
`localeCompare` comparator) are modelled by executable functions on
`String.data` character lists, since the corresponding Lean `String`
primitives do not reduce in the kernel.  `localeCompare` is modelled as
lexicographic character comparison.
-/

/-- JavaScript `s.split(",")` on character lists: accumulates the current
token and starts a new one at every comma; the final accumulator is always
emitted, so `""` yields `[""]`, and doubled or trailing commas yield empty
tokens. -/
def splitCommaAux : List Char → List Char → List (List Char)
  | [], acc => [acc.reverse]
  | c :: rest, acc =>
    if c = ',' then acc.reverse :: splitCommaAux rest []
    else splitCommaAux rest (c :: acc)

/-- JavaScript `s.split(",")`. -/
def jsSplitComma (s : String) : List String :=
  (splitCommaAux s.data []).map String.mk

/-- JavaScript `s.trim()`: strips leading and trailing whitespace. -/
def jsTrim (s : String) : String :=
  String.mk (((s.data.dropWhile Char.isWhitespace).reverse.dropWhile Char.isWhitespace).reverse)

/-- Lexicographic comparison of character lists (the model of
`a.localeCompare(b) ≤ 0`). -/
def charListLe : List Char → List Char → Bool
  | [], _ => true
  | _ :: _, [] => false
  | a :: as, b :: bs => if a = b then charListLe as bs else decide (a < b)

/-- String comparison used by the sort comparators. -/
def strLe (a b : String) : Bool := charListLe a.data b.data

/-- Insert into a sorted list, after existing equal elements (stable). -/
def insertLe {α : Type} (le : α → α → Bool) (x : α) : List α → List α
  | [] => [x]
  | y :: ys => if le x y then x :: y :: ys else y :: insertLe le x ys

/-- Stable insertion sort: the model of JavaScript's stable
`Array.prototype.sort`. -/
def sortLe {α : Type} (le : α → α → Bool) : List α → List α
  | [] => []
  | x :: xs => insertLe le x (sortLe le xs)

/-- Model of `xs.sort((a, b) => a.name.localeCompare(b.name))` for any record type with
a name projection. -/
def sortByName {α : Type} (name : α → String) (l : List α) : List α :=
  sortLe (fun a b => strLe (name a) (name b)) l

/-- Model of `interface Municipality { code, name }` from ManageAccommodations.tsx. -/
structure Municipality where
  code : String
  name : String
deriving DecidableEq, Repr

/-- Model of `interface Barangay { code, name }` from ManageAccommodations.tsx. -/
structure Barangay where
  code : String
  name : String
deriving DecidableEq, Repr

/-- The `formData` state object of ManageAccommodations (all free-text fields;
`category` and `amenities` are the raw comma-separated strings; `rating` is a
number, modelled as `Int`). -/
structure FormData where
  name : String
  description : String
  location : String
  municipality : String
  category : String
  image_url : String
  contact_number : String
  email : String
  price_range : String
  amenities : String
  rating : Int
deriving DecidableEq, Repr

/-- Model of `interface Accommodation` from ManageAccommodations.tsx: a stored record,
with `category` and `amenities` as string arrays. -/
structure Accommodation where
  id : String
  name : String
  description : String
  location : String
  municipality : String
  category : List String
  image_url : String
  contact_number : String
  email : String
  price_range : String
  amenities : List String
  rating : Int
deriving DecidableEq, Repr

/-- The row sent to the store by `handleSubmit` (the spread of `formData` with
`category` and `amenities` replaced by their split arrays; no `id`). -/
structure AccommodationData where
  name : String
  description : String
  location : String
  municipality : String
  category : List String
  image_url : String
  contact_number : String
  email : String
  price_range : String
  amenities : List String
  rating : Int
deriving DecidableEq, Repr

/-- The local state of the ManageAccommodations component. -/
structure MAState where
  accommodations : List Accommodation
  isOpen : Bool
  editingId : Option String
  municipalities : List Municipality
  barangays : List Barangay
  formData : FormData
deriving DecidableEq, Repr

/-- A toast notification (`toast.success` / `toast.error` from sonner, or the
`useToast` hook's default / destructive variants). -/
inductive Toast
  | success (msg : String)
  | error (msg : String)
deriving DecidableEq, Repr

/-- The two endpoint families of the geographic reference service used by
`fetchBarangays`: `/api/municipalities/{code}/barangays/` and
`/api/cities/{code}/barangays/`. -/
inductive Endpoint
  | municipality
  | city
deriving DecidableEq, Repr

/-- A barangay request: endpoint family plus the code interpolated into the
URL. -/
structure Request where
  endpoint : Endpoint
  code : String
deriving DecidableEq, Repr

/-- An HTTP response as `fetchBarangays` consumes it: `ok` is `response.ok`;
`body?` is the result of `response.json()` followed by `(data || []).map(...)`
— `none` when parsing throws (non-JSON body or a non-array value whose `.map`
throws), `some data` when it yields an array. -/
structure HttpResponse where
  ok : Bool
  body? : Option (List Barangay)
deriving DecidableEq, Repr

/-- The network environment for barangay fetches: each request either throws
(`Except.error`, a rejected `fetch`) or yields a response. -/
def FetchEnv : Type := Request → Except Unit HttpResponse

/-- The initial/reset `formData` value (every string field empty, rating 0). -/
def emptyForm : FormData :=
  { name := "", description := "", location := "", municipality := ""
    category := "", image_url := "", contact_number := "", email := ""
    price_range := "", amenities := "", rating := 0 }

/-- Handler `fetchAccommodations`: `supabase.from("accommodations").select("*")
.order("name")`; on `!error && data` the list is replaced, otherwise nothing
happens — note there is no toast on either branch. -/
def fetchAccommodations (res : Except Unit (List Accommodation)) (s : MAState) :
    MAState × List Toast :=
  match res with
  | .ok data => ({ s with accommodations := data }, [])
  | .error _ => (s, [])

/-- Handler `fetchMunicipalities`: concurrently fetch the fixed province's
municipalities and cities, parse both bodies, merge (`null` read as an empty
array), map to (code, name) and sort by name, storing the result; any thrown
fetch or parse error is caught and reported with
`toast.error("Failed to load municipalities and cities")`, leaving the set
unchanged.  Each endpoint's resolution is `Except.error ()` when its fetch
rejects or its body fails to parse (either rejection aborts the joined
`Promise.all`), otherwise `Except.ok` with the parsed array (`none` for a
null body). -/
def fetchMunicipalities (muniRes cityRes : Except Unit (Option (List Municipality)))
    (s : MAState) : MAState × List Toast :=
  match muniRes, cityRes with
  | .ok muniData, .ok cityData =>
    ({ s with
        municipalities := sortByName Municipality.name (muniData.getD [] ++ cityData.getD []) },
     [])
  | _, _ => (s, [.error "Failed to load municipalities and cities"])

/-- Handler `fetchBarangays(code)`: fetch the municipality endpoint; if the response
is not ok, fetch the city endpoint with the same code; parse whichever
response was kept, sort by name, and store the result.  Any thrown error
(rejected fetch or failed parse) is caught and reported with
`toast.error("Failed to load barangays")`; the catch block does not touch
`barangays`.  Returns the next state, the requests issued, and the toasts
shown. -/
def fetchBarangays (env : FetchEnv) (code : String) (s : MAState) :
    MAState × List Request × List Toast :=
  let req1 : Request := ⟨.municipality, code⟩
  match env req1 with
  | .error _ => (s, [req1], [.error "Failed to load barangays"])
  | .ok r1 =>
    if r1.ok then
      match r1.body? with
      | none => (s, [req1], [.error "Failed to load barangays"])
      | some data => ({ s with barangays := sortByName Barangay.name data }, [req1], [])
    else
      let req2 : Request := ⟨.city, code⟩
      match env req2 with
      | .error _ => (s, [req1, req2], [.error "Failed to load barangays"])
      | .ok r2 =>
        match r2.body? with
        | none => (s, [req1, req2], [.error "Failed to load barangays"])
        | some data => ({ s with barangays := sortByName Barangay.name data }, [req1, req2], [])

/-- The overall outcome of one `fetchBarangays` run, as determined by the
environment alone: `some data` when a body is successfully parsed from the
kept response, `none` on total failure (thrown fetch or failed parse). -/
def fetchOutcome (env : FetchEnv) (code : String) : Option (List Barangay) :=
  match env ⟨.municipality, code⟩ with
  | .error _ => none
  | .ok r1 =>
    if r1.ok then r1.body?
    else
      match env ⟨.city, code⟩ with
      | .error _ => none
      | .ok r2 => r2.body?

/-- Handler `handleMunicipalityChange(code)`, the part that runs synchronously before
any barangay response arrives: resolve the code to a name with
`municipalities.find(...)` (empty string when absent), set it as the form's
municipality, clear the form's location, clear `barangays`, and — when the
code is a nonempty string — request `fetchBarangays(code)`.  Returns the next
state and the pending fetch code, if any. -/
def handleMunicipalityChange (code : String) (s : MAState) :
    MAState × Option String :=
  let selected := s.municipalities.find? (fun m => m.code == code)
  let s' := { s with
    formData := { s.formData with
      municipality := (selected.map Municipality.name).getD ""
      location := "" }
    barangays := [] }
  (s', if code = "" then none else some code)

/-- Handler `handleMunicipalityChange` together with the resolution of the barangay
fetch it triggers. -/
def handleMunicipalityChangeRun (env : FetchEnv) (code : String) (s : MAState) :
    MAState × List Request × List Toast :=
  match handleMunicipalityChange code s with
  | (s', none) => (s', [], [])
  | (s', some c) => fetchBarangays env c s'

/-- Handler `resetForm()`: clear the form, the barangay set, and the editing id. -/
def resetForm (s : MAState) : MAState :=
  { s with formData := emptyForm, barangays := [], editingId := none }

/-- The data object built by `handleSubmit`: `formData` with `category` and
`amenities` replaced by `formData.category.split(",").map(c => c.trim())` and
likewise for amenities. -/
def buildAccommodationData (f : FormData) : AccommodationData :=
  { name := f.name, description := f.description, location := f.location
    municipality := f.municipality
    category := (jsSplitComma f.category).map jsTrim
    image_url := f.image_url, contact_number := f.contact_number
    email := f.email, price_range := f.price_range
    amenities := (jsSplitComma f.amenities).map jsTrim
    rating := f.rating }

/-- Remote effects issued by the ManageAccommodations handlers. -/
inductive MAEffect
  | dbUpdate (id : String) (row : AccommodationData)
  | dbInsert (row : AccommodationData)
  | dbDelete (id : String)
  | refetchList
deriving DecidableEq, Repr

/-- Handler `handleSubmit(e)`: build the accommodation data; if an editing id is
present, update that record, otherwise insert; on error toast the failure; on
success toast, close the dialog, reset the form, and refetch the list.
`res` is the resolution of the update/insert call. -/
def handleSubmit (res : Except Unit Unit) (s : MAState) :
    MAState × List MAEffect × List Toast :=
  let row := buildAccommodationData s.formData
  match s.editingId with
  | some id =>
    match res with
    | .error _ => (s, [.dbUpdate id row], [.error "Failed to update accommodation"])
    | .ok _ =>
      (resetForm { s with isOpen := false },
       [.dbUpdate id row, .refetchList],
       [.success "Accommodation updated successfully"])
  | none =>
    match res with
    | .error _ => (s, [.dbInsert row], [.error "Failed to add accommodation"])
    | .ok _ =>
      (resetForm { s with isOpen := false },
       [.dbInsert row, .refetchList],
       [.success "Accommodation added successfully"])

/-- Handler `handleEdit(accommodation)`, the synchronous part: hydrate the form from
the record (arrays rejoined with `", "`, missing optionals defaulted), set the
editing id, open the dialog, and — when the record's municipality is a
nonempty string and its name is found in the loaded municipality set — request
`fetchBarangays` with the found code.  Returns the next state and the pending
fetch code, if any. -/
def handleEdit (a : Accommodation) (s : MAState) : MAState × Option String :=
  let s' := { s with
    formData :=
      { name := a.name, description := a.description, location := a.location
        municipality := a.municipality
        category := String.intercalate ", " a.category
        image_url := a.image_url, contact_number := a.contact_number
        email := a.email, price_range := a.price_range
        amenities := String.intercalate ", " a.amenities
        rating := a.rating }
    editingId := some a.id
    isOpen := true }
  if a.municipality = "" then (s', none)
  else
    match s.municipalities.find? (fun m => m.name == a.municipality) with
    | some muni => (s', some muni.code)
    | none => (s', none)

/-- Handler `handleEdit` together with the resolution of the barangay fetch it may
trigger. -/
def handleEditRun (env : FetchEnv) (a : Accommodation) (s : MAState) :
    MAState × List Request × List Toast :=
  match handleEdit a s with
  | (s', none) => (s', [], [])
  | (s', some c) => fetchBarangays env c s'

/-- Handler `handleDelete(id)`: a confirmation gate, then delete; toast on either
resolution and refetch on success. -/
def handleDelete (confirmed : Bool) (res : Except Unit Unit) (id : String)
    (s : MAState) : MAState × List MAEffect × List Toast :=
  if !confirmed then (s, [], [])
  else
    match res with
    | .error _ => (s, [.dbDelete id], [.error "Failed to delete accommodation"])
    | .ok _ =>
      (s, [.dbDelete id, .refetchList], [.success "Accommodation deleted successfully"])

/-- The row inserted into the `reviews` table by the review form:
`{ spot_id, user_id, rating, comment: comment.trim() || null }`. -/
structure ReviewInsert where
  spot_id : String
  user_id : String
  rating : Nat
  comment : Option String
deriving DecidableEq, Repr

/-- The local state of the ReviewForm component. -/
structure RFState where
  rating : Nat
  hoveredRating : Nat
  comment : String
  isSubmitting : Bool
deriving DecidableEq, Repr

/-- Remote effects issued by the review form's submit handler. -/
inductive RFEffect
  | insert (row : ReviewInsert)
  | refresh
deriving DecidableEq, Repr

/-- The review form's `handleSubmit(e)`: if the draft rating is 0, toast a
validation error and return before any remote call; otherwise set the
submitting flag, insert the row (comment trimmed, empty normalized to null),
and on error toast failure, on success toast success, reset rating to 0,
clear the comment, and invoke `onReviewSubmitted`; either way the submitting
flag ends false.  `res` is the resolution of the insert call; the
`hasUserReviewed` prop is in scope in the component closure and is taken as a
parameter here. -/
def rfHandleSubmit (spotId userId : String) (hasUserReviewed : Bool)
    (res : Except Unit Unit) (s : RFState) :
    RFState × List RFEffect × List Toast :=
  if s.rating = 0 then
    (s, [], [.error "Please select a rating"])
  else
    let row : ReviewInsert :=
      { spot_id := spotId, user_id := userId, rating := s.rating
        comment := if jsTrim s.comment = "" then none else some (jsTrim s.comment) }
    match res with
    | .error _ =>
      ({ s with isSubmitting := false }, [.insert row], [.error "Failed to submit review"])
    | .ok _ =>
      ({ s with rating := 0, comment := "", isSubmitting := false },
       [.insert row, .refresh],
       [.success "Review submitted successfully"])

/-- The submit button's `disabled` attribute:
`isSubmitting || rating === 0 || hasUserReviewed`. -/
def rfSubmitDisabled (hasUserReviewed : Bool) (s : RFState) : Bool :=
  s.isSubmitting || s.rating == 0 || hasUserReviewed

/-- Model of `interface Review` from ReviewList.tsx (ratings are integers 1..5 in
practice; modelled as `Nat`). -/
structure Review where
  id : String
  rating : Nat
  comment : Option String
  created_at : String
  user_id : String
  user_name : String
deriving DecidableEq, Repr

/-- Model of `reviews.reduce((sum, r) => sum + r.rating, 0)`. -/
def ratingSum (reviews : List Review) : Nat :=
  (reviews.map Review.rating).sum

/-- Bit length of a natural number, via its base-2 digit string (1 for 0). -/
def bitLen (n : Nat) : Nat := (Nat.toDigits 2 n).length

/-- Rounding of the fraction `A / B` (for `B > 0`) to the nearest integer,
ties to even. -/
def roundHalfEvenFrac (A B : Nat) : Nat :=
  let q := A / B
  let r := A % B
  if 2 * r < B then q
  else if B < 2 * r then q + 1
  else if q % 2 = 0 then q else q + 1

/-- The pair `(A, B)` with `A / B = (s / n) * 2 ^ k`, kept in naturals. -/
def scalePow2 (s n : Nat) (k : Int) : Nat × Nat :=
  if 0 ≤ k then (s * 2 ^ k.toNat, n) else (s, n * 2 ^ (-k).toNat)

/-- The IEEE-754 binary64 value nearest `s / n` (round to 53 significand
bits, ties to even), as a mantissa–exponent pair `(m, k)` of value
`m / 2 ^ k`; for positive inputs `2 ^ 52 ≤ m ≤ 2 ^ 53`.  The exponent is
unbounded in the model — overflow and subnormals, unreachable for review
data, are not modelled. -/
def flFrac (s n : Nat) : Nat × Int :=
  let k0 : Int := 52 - (bitLen s : Int) + (bitLen n : Int)
  let p := scalePow2 s n k0
  let k : Int := if p.1 < 2 ^ 52 * p.2 then k0 + 1 else k0
  let p' := scalePow2 s n k
  (roundHalfEvenFrac p'.1 p'.2, k)

/-- ECMAScript `toFixed(1)` on the nonnegative exact value `X / Y` (`Y > 0`):
the integer `t` nearest `10 * X / Y`, the larger one on ties, rendered as
`"w.d"`; `(20 * X + Y) / (2 * Y)` is `⌊10 * X / Y + 1 / 2⌋` exactly. -/
def toFixed1Frac (X Y : Nat) : String :=
  let t := (20 * X + Y) / (2 * Y)
  toString (t / 10) ++ "." ++ toString (t % 10)

/-- Model of `(reviews.reduce(...) / reviews.length).toFixed(1)`: the
division is performed in binary64, so `toFixed(1)` is applied to the double
nearest the exact mean (the integer sum and the length are exact in
binary64 for any realistic collection). -/
def avgFixed1 (reviews : List Review) : String :=
  let mk := flFrac (ratingSum reviews) reviews.length
  let xy : Nat × Nat :=
    if 0 ≤ mk.2 then (mk.1, 2 ^ mk.2.toNat) else (mk.1 * 2 ^ (-mk.2).toNat, 1)
  toFixed1Frac xy.1 xy.2

/-- Spec-side rendering, for comparison with `avgFixed1`: the exact
arithmetic mean rendered half-up to one decimal place, following the spec's
words "the arithmetic mean of all loaded ratings, displayed to one decimal
place"; the program instead rounds the binary64 quotient. -/
def exactMeanFixed1 (reviews : List Review) : String :=
  toFixed1Frac (ratingSum reviews) reviews.length

/-- The count noun: `reviews.length === 1 ? "review" : "reviews"`. -/
def reviewNoun (n : Nat) : String :=
  if n = 1 then "review" else "reviews"

/-- The count label `({reviews.length} {noun})`. -/
def reviewCountLabel (n : Nat) : String :=
  "(" ++ toString n ++ " " ++ reviewNoun n ++ ")"

/-- What the review list renders. -/
inductive ReviewListView
  | loading
  | empty
  | listed (avgDisplay : String) (countLabel : String) (reviews : List Review)
deriving DecidableEq, Repr

/-- The ReviewList component's render logic: loading indicator while
`isLoading`; empty-state message when the collection is null/empty; otherwise
the average display, the count label, and the review cards. -/
def reviewListRender (isLoading : Bool) (reviews : List Review) : ReviewListView :=
  if isLoading then .loading
  else if reviews.length = 0 then .empty
  else .listed (avgFixed1 reviews) (reviewCountLabel reviews.length) reviews

/-- Remote effects issued by the review list's delete handler. -/
inductive RLEffect
  | dbDeleteReview (id : String)
  | refreshReviews
deriving DecidableEq, Repr

/-- Handler `handleDeleteReview(reviewId)` in ReviewList: delete the row; on error
toast failure, on success toast success and invoke `fetchReviews`.  The local
review collection is a prop and is never mutated locally. -/
def handleDeleteReview (res : Except Unit Unit) (reviewId : String) :
    List RLEffect × List Toast :=
  match res with
  | .error _ => ([.dbDeleteReview reviewId], [.error "Failed to delete review"])
  | .ok _ =>
    ([.dbDeleteReview reviewId, .refreshReviews], [.success "Review deleted successfully"])

/-- The delete button's visibility in ReviewList:
`currentUserId === review.user_id`. -/
def deleteVisible (currentUserId : Option String) (r : Review) : Bool :=
  currentUserId == some r.user_id

/-- A sample component state used by concrete witnesses: two municipalities
loaded, everything else initial. -/
def exState : MAState :=
  { accommodations := [], isOpen := false, editingId := none
    municipalities := [⟨"050506000", "Camalig"⟩, ⟨"050516000", "Malinao"⟩]
    barangays := [], formData := emptyForm }

/-- A sample environment whose municipality endpoint answers with a non-ok
response and whose city endpoint answers ok with an empty list. -/
def fallbackEnv : FetchEnv := fun r =>
  match r.endpoint with
  | .municipality => .ok ⟨false, none⟩
  | .city => .ok ⟨true, some []⟩

/-- An environment in which every fetch throws. -/
def downEnv : FetchEnv := fun _ => .error ()

/-- An environment in which every request succeeds with one barangay. -/
def upEnv : FetchEnv := fun _ => .ok ⟨true, some [⟨"b1", "Fatima"⟩]⟩

/-- A component state holding a stale non-empty barangay set. -/
def staleState : MAState :=
  { exState with barangays := [⟨"055001001", "Poblacion"⟩] }

/-- A stored record whose municipality is set but absent from `exState`'s
loaded municipality set. -/
def tabacoAcc : Accommodation :=
  { id := "a1", name := "Sample Inn", description := "", location := ""
    municipality := "Tabaco City", category := [], image_url := ""
    contact_number := "", email := "", price_range := "", amenities := []
    rating := 0 }

/-- A component state whose municipality set contains the record's
municipality name. -/
def tabacoState : MAState :=
  { exState with municipalities := exState.municipalities ++ [⟨"050518000", "Tabaco City"⟩] }

/-- Twenty reviews whose ratings sum to 23 (seventeen ratings of 1, three of
2): the exact mean is 1.15, but the binary64 quotient 23 / 20 is strictly
below 1.15, so the program displays "1.1" while the exact mean rendered to
one decimal place is "1.2". -/
def rs20 : List Review :=
  List.replicate 17 ⟨"one", 1, none, "", "u1", "A"⟩ ++
    List.replicate 3 ⟨"two", 2, none, "", "u2", "B"⟩

/-- Resolution of `municipalities.find(...)` by code: with pairwise distinct
codes, `find?` returns exactly the member carrying the sought code. -/
theorem find_code_unique (l : List Municipality) (c : String) (m : Municipality)
    (hm : m ∈ l) (hc : m.code = c) (hnd : (l.map Municipality.code).Nodup) :
    l.find? (fun x => x.code == c) = some m := by
  induction l with
  | nil => cases hm
  | cons a t ih =>
    rw [List.map_cons, List.nodup_cons] at hnd
    rcases List.mem_cons.mp hm with rfl | hmt
    · exact List.find?_cons_of_pos _ (by simp [hc])
    · have hacb : (a.code == c) = false := by
        simp only [beq_eq_false_iff_ne, ne_eq]
        intro hec
        exact hnd.1 (hec ▸ hc ▸ List.mem_map_of_mem Municipality.code hmt)
      simp only [List.find?, hacb]
      exact ih hmt hnd.2

/-- C1: for every municipality selection event with code `c` that resolves to
a loaded municipality `m` (codes being pairwise distinct), and for every prior
form state, `handleMunicipalityChange` sets the form's municipality to `m`'s
display name, clears the form's location, and empties the barangay set; in
the two-phase model the barangay set is still empty at the end of the
synchronous handler, i.e. until the triggered barangay fetch resolves. -/
theorem c1_select_municipality_resets (c : String) (s : MAState) (m : Municipality)
    (hm : m ∈ s.municipalities) (hc : m.code = c)
    (hnd : (s.municipalities.map Municipality.code).Nodup) :
    (handleMunicipalityChange c s).1.formData.municipality = m.name ∧
    (handleMunicipalityChange c s).1.formData.location = "" ∧
    (handleMunicipalityChange c s).1.barangays = [] := by
  have hf := find_code_unique s.municipalities c m hm hc hnd
  simp [handleMunicipalityChange, hf]

/-- Witness for C1 at the code of Camalig in the sample state. -/
theorem c1_select_municipality_resets_witness :
    (handleMunicipalityChange "050506000" exState).1.formData.municipality = "Camalig" ∧
    (handleMunicipalityChange "050506000" exState).1.formData.location = "" ∧
    (handleMunicipalityChange "050506000" exState).1.barangays = [] :=
  c1_select_municipality_resets "050506000" exState ⟨"050506000", "Camalig"⟩
    (by decide) rfl (by decide)

/-- C2: for every accommodation submission, the first effect issued is the
update (when an editing id is present) or insert (otherwise) of exactly
`buildAccommodationData formData`, whose category and amenities are the
comma-split, per-token-trimmed sequences of the input strings; the concrete
instance shows order preservation, retained empty tokens from doubled and
trailing commas, and no deduplication. -/
theorem c2_submit_split_trim (res : Except Unit Unit) (s : MAState) :
    ((handleSubmit res s).2.1.head? =
      some (match s.editingId with
            | some id => MAEffect.dbUpdate id (buildAccommodationData s.formData)
            | none => MAEffect.dbInsert (buildAccommodationData s.formData))) ∧
    (buildAccommodationData s.formData).category
      = (jsSplitComma s.formData.category).map jsTrim ∧
    (buildAccommodationData s.formData).amenities
      = (jsSplitComma s.formData.amenities).map jsTrim ∧
    (jsSplitComma "Luxury, , Beach Resort,,Luxury ,").map jsTrim
      = ["Luxury", "", "Beach Resort", "", "Luxury", ""] := by
  refine ⟨?_, rfl, rfl, by decide⟩
  rcases hE : s.editingId with _ | id <;> cases res <;> simp [handleSubmit, hE]

/-- C3: for every barangay fetch with code `c` whose first attempt yields a
response `r1` (rather than throwing), the request trace starts with the
municipality endpoint at code `c`; it is either that single request or that
request followed by the city endpoint at the same code `c`; and the city
endpoint is contacted if and only if `r1` is not successful. -/
theorem c3_barangay_fallback (env : FetchEnv) (c : String) (s : MAState)
    (r1 : HttpResponse) (h1 : env ⟨Endpoint.municipality, c⟩ = .ok r1) :
    ((fetchBarangays env c s).2.1 = [⟨Endpoint.municipality, c⟩] ∨
     (fetchBarangays env c s).2.1 = [⟨Endpoint.municipality, c⟩, ⟨Endpoint.city, c⟩]) ∧
    ((⟨Endpoint.city, c⟩ : Request) ∈ (fetchBarangays env c s).2.1 ↔ r1.ok = false) := by
  simp only [fetchBarangays, h1]
  rcases hok : r1.ok with _ | _
  · rcases h2 : env ⟨Endpoint.city, c⟩ with _ | r2
    · simp [hok, h2]
    · rcases hb : r2.body? with _ | data <;> simp [hok, h2, hb]
  · rcases hb : r1.body? with _ | data <;> simp [hok, hb]

/-- Witness for C3 in an environment whose municipality endpoint answers
non-ok, forcing the city fallback with the same code. -/
theorem c3_barangay_fallback_witness :
    ((fetchBarangays fallbackEnv "050518000" exState).2.1 = [⟨Endpoint.municipality, "050518000"⟩] ∨
     (fetchBarangays fallbackEnv "050518000" exState).2.1
       = [⟨Endpoint.municipality, "050518000"⟩, ⟨Endpoint.city, "050518000"⟩]) ∧
    ((⟨Endpoint.city, "050518000"⟩ : Request) ∈ (fetchBarangays fallbackEnv "050518000" exState).2.1 ↔
      (⟨false, none⟩ : HttpResponse).ok = false) :=
  c3_barangay_fallback fallbackEnv "050518000" exState ⟨false, none⟩ rfl

/-- C4 counterexample: in a state whose barangay set is non-empty (stale) and
an environment where every fetch throws, the fetch fails totally and the
failure notification is shown, yet the barangay set afterwards is NOT empty —
the catch block never clears it. -/
theorem c4_counterexample :
    (fetchBarangays downEnv "050518000" staleState).2.2
      = [Toast.error "Failed to load barangays"] ∧
    (fetchBarangays downEnv "050518000" staleState).1.barangays ≠ [] := by
  constructor
  · rfl
  · decide

/-- C4 amended: for every barangay fetch that fails totally (thrown fetch or
unparseable body on the kept response), exactly the failure notification is
surfaced and the barangay set is left unchanged — not cleared; consequently,
in the municipality-selection flow, which clears the set before fetching, the
set is empty after a total failure. -/
theorem c4_total_failure_unchanged (env : FetchEnv) (c : String) (s : MAState)
    (h : fetchOutcome env c = none) :
    (fetchBarangays env c s).2.2 = [Toast.error "Failed to load barangays"] ∧
    (fetchBarangays env c s).1.barangays = s.barangays ∧
    (handleMunicipalityChangeRun env c s).1.barangays = [] := by
  have key : ∀ t : MAState,
      (fetchBarangays env c t).2.2 = [Toast.error "Failed to load barangays"] ∧
      (fetchBarangays env c t).1.barangays = t.barangays := by
    intro t
    rcases h1 : env ⟨Endpoint.municipality, c⟩ with _ | r1
    · simp [fetchBarangays, h1]
    · rcases hok : r1.ok with _ | _
      · rcases h2 : env ⟨Endpoint.city, c⟩ with _ | r2
        · simp [fetchBarangays, h1, hok, h2]
        · rcases hb : r2.body? with _ | data
          · simp [fetchBarangays, h1, hok, h2, hb]
          · exfalso
            simp [fetchOutcome, h1, hok, h2, hb] at h
      · rcases hb : r1.body? with _ | data
        · simp [fetchBarangays, h1, hok, hb]
        · exfalso
          simp [fetchOutcome, h1, hok, hb] at h
  refine ⟨(key s).1, (key s).2, ?_⟩
  simp only [handleMunicipalityChangeRun, handleMunicipalityChange]
  rcases hc : c == "" with _ | _
  · have : ¬ (c = "") := by simpa using hc
    simp only [if_neg this]
    exact (key _).2
  · have : c = "" := by simpa using hc
    simp [this]

/-- Witness for C4 amended: the all-throwing environment on the stale state. -/
theorem c4_total_failure_unchanged_witness :
    (fetchBarangays downEnv "050518000" staleState).2.2
      = [Toast.error "Failed to load barangays"] ∧
    (fetchBarangays downEnv "050518000" staleState).1.barangays = staleState.barangays ∧
    (handleMunicipalityChangeRun downEnv "050518000" staleState).1.barangays = [] :=
  c4_total_failure_unchanged downEnv "050518000" staleState rfl

/-- C5 counterexample: a failed accommodation list fetch surfaces no
notification at all — `fetchAccommodations` has no toast on either branch, so
the claim that every remote operation's resolution (in particular this
fetch's failure) invokes the notification capability is false. -/
theorem c5_counterexample :
    (fetchAccommodations (Except.error ()) exState).2 = [] := by
  rfl

/-- C5 amended: mutating operations — accommodation insert/update via
submit, confirmed delete, review insert, review delete — surface a
notification on every resolution, success or failure; the two geographic
reference fetches surface a notification exactly when they fail (the
municipality/city load when either joined fetch or parse throws, the
barangay load on total failure) and are silent on success; the accommodation
list fetch is the exception to the claim — it never notifies, and on failure
it leaves the entire component state unchanged. -/
theorem c5_notification_coverage (res : Except Unit Unit)
    (resL : Except Unit (List Accommodation)) (id : String) (s : MAState)
    (sp u : String) (hur : Bool) (rs : RFState)
    (mr cr : Except Unit (Option (List Municipality)))
    (env : FetchEnv) (c : String) :
    (fetchAccommodations resL s).2 = [] ∧
    (fetchAccommodations (Except.error ()) s).1 = s ∧
    (handleSubmit res s).2.2 ≠ [] ∧
    (handleDelete true res id s).2.2 ≠ [] ∧
    (rfHandleSubmit sp u hur res rs).2.2 ≠ [] ∧
    (handleDeleteReview res id).2 ≠ [] ∧
    ((fetchMunicipalities mr cr s).2 ≠ [] ↔
      (mr = Except.error () ∨ cr = Except.error ())) ∧
    ((fetchBarangays env c s).2.2 ≠ [] ↔ fetchOutcome env c = none) := by
  refine ⟨?_, rfl, ?_, ?_, ?_, ?_, ?_, ?_⟩
  · cases resL <;> rfl
  · rcases hE : s.editingId with _ | i <;> cases res <;> simp [handleSubmit, hE]
  · cases res <;> simp [handleDelete]
  · rcases hr : rs.rating with _ | n <;> cases res <;> simp [rfHandleSubmit, hr]
  · cases res <;> simp [handleDeleteReview]
  · rcases mr with ⟨⟨⟩⟩ | m? <;> rcases cr with ⟨⟨⟩⟩ | c? <;> simp [fetchMunicipalities]
  · rcases h1 : env ⟨Endpoint.municipality, c⟩ with _ | r1
    · simp [fetchBarangays, fetchOutcome, h1]
    · rcases hok : r1.ok with _ | _
      · rcases h2 : env ⟨Endpoint.city, c⟩ with _ | r2
        · simp [fetchBarangays, fetchOutcome, h1, hok, h2]
        · rcases hb : r2.body? with _ | data <;>
            simp [fetchBarangays, fetchOutcome, h1, hok, h2, hb]
      · rcases hb : r1.body? with _ | data <;>
          simp [fetchBarangays, fetchOutcome, h1, hok, hb]

/-- C6 counterexample: a record whose municipality field is set but whose
name is not in the currently loaded municipality set — here the set holds
only Camalig and Malinao — triggers no barangay request at all, and the
barangay set stays empty even though the environment would answer every
request; the location dropdown is therefore not usable. -/
theorem c6_counterexample :
    tabacoAcc.municipality ≠ "" ∧
    (handleEditRun upEnv tabacoAcc exState).2.1 = [] ∧
    (handleEditRun upEnv tabacoAcc exState).1.barangays = [] := by
  refine ⟨by decide, rfl, rfl⟩

/-- C6 amended: for every record whose municipality field is set and whose
municipality name is found in the currently loaded municipality set, the edit
operation resolves the first matching entry's code, issues exactly one
barangay request with that code, and — when that request succeeds — populates
the barangay set with the sorted result, with the dialog opened in edit mode
by the same handler. -/
theorem c6_edit_preloads_barangays (env : FetchEnv) (a : Accommodation)
    (s : MAState) (m : Municipality) (data : List Barangay)
    (hm : a.municipality ≠ "")
    (hf : s.municipalities.find? (fun x => x.name == a.municipality) = some m)
    (henv : env ⟨Endpoint.municipality, m.code⟩ = .ok ⟨true, some data⟩) :
    (handleEditRun env a s).2.1 = [⟨Endpoint.municipality, m.code⟩] ∧
    (handleEditRun env a s).1.barangays = sortByName Barangay.name data ∧
    (handleEditRun env a s).1.isOpen = true ∧
    (handleEditRun env a s).1.editingId = some a.id := by
  simp only [handleEditRun, handleEdit, if_neg hm, hf]
  simp [fetchBarangays, henv]

/-- Witness for C6 amended: editing the Tabaco City record in a state whose
municipality set contains Tabaco City, with a responsive environment. -/
theorem c6_edit_preloads_barangays_witness :
    (handleEditRun upEnv tabacoAcc tabacoState).2.1
      = [⟨Endpoint.municipality, "050518000"⟩] ∧
    (handleEditRun upEnv tabacoAcc tabacoState).1.barangays
      = sortByName Barangay.name [⟨"b1", "Fatima"⟩] ∧
    (handleEditRun upEnv tabacoAcc tabacoState).1.isOpen = true ∧
    (handleEditRun upEnv tabacoAcc tabacoState).1.editingId = some tabacoAcc.id :=
  c6_edit_preloads_barangays upEnv tabacoAcc tabacoState ⟨"050518000", "Tabaco City"⟩
    [⟨"b1", "Fatima"⟩] (by decide) (by decide) rfl

/-- C7: for every invocation of the review form's submit with draft rating 0,
the handler returns before the insert — no remote effect is issued, a
destructive validation toast is shown, and the local draft state (rating,
comment, submitting flag) is returned unchanged; this holds whatever the
insert oracle would have answered and whatever `hasUserReviewed` is. -/
theorem c7_zero_rating_rejected (sp u : String) (hur : Bool)
    (res : Except Unit Unit) (s : RFState) (h : s.rating = 0) :
    rfHandleSubmit sp u hur res s = (s, [], [Toast.error "Please select a rating"]) := by
  simp [rfHandleSubmit, h]

/-- Witness for C7 at a concrete unset-rating draft. -/
theorem c7_zero_rating_rejected_witness :
    rfHandleSubmit "spot1" "user1" false (Except.ok ()) ⟨0, 3, "draft text", false⟩
      = (⟨0, 3, "draft text", false⟩, [], [Toast.error "Please select a rating"]) :=
  c7_zero_rating_rejected "spot1" "user1" false (Except.ok ()) ⟨0, 3, "draft text", false⟩ rfl

/-- C8: for every review submission with nonzero rating, the insert row
carries the trimmed comment with the empty string normalized to `null`; on
success the draft rating is reset to 0, the comment is cleared and the
refresh callback is invoked; on failure only the failure notification is
shown, the draft rating and comment are unchanged and the callback is not
invoked. -/
theorem c8_nonzero_submit (sp u : String) (hur : Bool)
    (res : Except Unit Unit) (s : RFState) (h : s.rating ≠ 0) :
    (rfHandleSubmit sp u hur res s).2.1.head?
      = some (RFEffect.insert ⟨sp, u, s.rating,
          if jsTrim s.comment = "" then none else some (jsTrim s.comment)⟩) ∧
    (rfHandleSubmit sp u hur (Except.ok ()) s).1.rating = 0 ∧
    (rfHandleSubmit sp u hur (Except.ok ()) s).1.comment = "" ∧
    RFEffect.refresh ∈ (rfHandleSubmit sp u hur (Except.ok ()) s).2.1 ∧
    (rfHandleSubmit sp u hur (Except.error ()) s).1.rating = s.rating ∧
    (rfHandleSubmit sp u hur (Except.error ()) s).1.comment = s.comment ∧
    (rfHandleSubmit sp u hur (Except.error ()) s).2.2
      = [Toast.error "Failed to submit review"] ∧
    RFEffect.refresh ∉ (rfHandleSubmit sp u hur (Except.error ()) s).2.1 := by
  cases res <;> simp [rfHandleSubmit, h]

/-- Witness for C8 at a concrete five-star draft whose comment trims to a
nonempty string. -/
theorem c8_nonzero_submit_witness :
    (rfHandleSubmit "spot1" "user1" false (Except.ok ()) ⟨5, 0, " lovely ", false⟩).2.1.head?
      = some (RFEffect.insert ⟨"spot1", "user1", (5 : Nat),
          if jsTrim " lovely " = "" then none else some (jsTrim " lovely ")⟩) ∧
    (rfHandleSubmit "spot1" "user1" false (Except.ok ())
      (⟨5, 0, " lovely ", false⟩ : RFState)).1.rating = 0 ∧
    (rfHandleSubmit "spot1" "user1" false (Except.ok ())
      (⟨5, 0, " lovely ", false⟩ : RFState)).1.comment = "" ∧
    RFEffect.refresh ∈ (rfHandleSubmit "spot1" "user1" false (Except.ok ())
      (⟨5, 0, " lovely ", false⟩ : RFState)).2.1 ∧
    (rfHandleSubmit "spot1" "user1" false (Except.error ())
      (⟨5, 0, " lovely ", false⟩ : RFState)).1.rating = (⟨5, 0, " lovely ", false⟩ : RFState).rating ∧
    (rfHandleSubmit "spot1" "user1" false (Except.error ())
      (⟨5, 0, " lovely ", false⟩ : RFState)).1.comment = (⟨5, 0, " lovely ", false⟩ : RFState).comment ∧
    (rfHandleSubmit "spot1" "user1" false (Except.error ())
      (⟨5, 0, " lovely ", false⟩ : RFState)).2.2 = [Toast.error "Failed to submit review"] ∧
    RFEffect.refresh ∉ (rfHandleSubmit "spot1" "user1" false (Except.error ())
      (⟨5, 0, " lovely ", false⟩ : RFState)).2.1 :=
  c8_nonzero_submit "spot1" "user1" false (Except.ok ())
    ⟨5, 0, " lovely ", false⟩ (by decide)

/-- C9 counterexample: twenty reviews with ratings summing to 23 have exact
mean 1.15, which rendered to one decimal place is "1.2"; the program divides
in binary64, whose quotient is strictly below 1.15, and displays "1.1" — so
the displayed average does not equal the arithmetic mean rendered to one
decimal place. -/
theorem c9_counterexample :
    avgFixed1 rs20 = "1.1" ∧
    exactMeanFixed1 rs20 = "1.2" ∧
    avgFixed1 rs20 ≠ exactMeanFixed1 rs20 := by
  refine ⟨by decide, by decide, by decide⟩

/-- C9 amended: for every non-empty review collection the component renders
the listed view whose average display is `toFixed(1)` of the binary64
quotient of the rating sum by the count — which agrees with the exact mean
rendered to one decimal place on the claim's example ([5, 4, 3] displays
"4.0") though not universally — and whose count label uses the singular noun
exactly when there is exactly one review ("(1 review)", "(2 reviews)"). -/
theorem c9_average_and_count (rs : List Review) (h : rs ≠ []) :
    reviewListRender false rs
      = ReviewListView.listed (avgFixed1 rs) (reviewCountLabel rs.length) rs ∧
    (reviewNoun rs.length = "review" ↔ rs.length = 1) ∧
    avgFixed1 [⟨"r1", 5, none, "", "u1", "A"⟩, ⟨"r2", 4, none, "", "u2", "B"⟩,
      ⟨"r3", 3, none, "", "u3", "C"⟩] = "4.0" ∧
    exactMeanFixed1 [⟨"r1", 5, none, "", "u1", "A"⟩, ⟨"r2", 4, none, "", "u2", "B"⟩,
      ⟨"r3", 3, none, "", "u3", "C"⟩] = "4.0" ∧
    reviewCountLabel 1 = "(1 review)" ∧
    reviewCountLabel 2 = "(2 reviews)" := by
  refine ⟨?_, ?_, by decide, by decide, by decide, by decide⟩
  · simp [reviewListRender, List.length_eq_zero, h]
  · rcases hn : decide (rs.length = 1) with _ | _
    · have hh : ¬ rs.length = 1 := of_decide_eq_false hn
      simp [reviewNoun, hh]
    · have hh : rs.length = 1 := of_decide_eq_true hn
      simp [reviewNoun, hh]

/-- Witness for C9 at the single review of rating 3. -/
theorem c9_average_and_count_witness :
    reviewListRender false [⟨"r3", 3, none, "", "u3", "C"⟩]
      = ReviewListView.listed (avgFixed1 [⟨"r3", 3, none, "", "u3", "C"⟩])
          (reviewCountLabel (([⟨"r3", 3, none, "", "u3", "C"⟩] : List Review).length))
          [⟨"r3", 3, none, "", "u3", "C"⟩] ∧
    (reviewNoun (([⟨"r3", 3, none, "", "u3", "C"⟩] : List Review).length) = "review" ↔
      ([⟨"r3", 3, none, "", "u3", "C"⟩] : List Review).length = 1) ∧
    avgFixed1 [⟨"r1", 5, none, "", "u1", "A"⟩, ⟨"r2", 4, none, "", "u2", "B"⟩,
      ⟨"r3", 3, none, "", "u3", "C"⟩] = "4.0" ∧
    exactMeanFixed1 [⟨"r1", 5, none, "", "u1", "A"⟩, ⟨"r2", 4, none, "", "u2", "B"⟩,
      ⟨"r3", 3, none, "", "u3", "C"⟩] = "4.0" ∧
    reviewCountLabel 1 = "(1 review)" ∧
    reviewCountLabel 2 = "(2 reviews)" :=
  c9_average_and_count [⟨"r3", 3, none, "", "u3", "C"⟩] (by decide)

/-- C10: the review form's submit handler is extensionally independent of the
`hasUserReviewed` flag — two invocations differing only in that flag produce
identical states, effect traces and toasts (the faithful embedding of
`handleSubmit` never reads the prop) — while the submit button's `disabled`
attribute is true whenever the flag is true: the duplicate-review defense
lives only in the button. -/
theorem c10_submit_independent_of_reviewed_flag (sp u : String) (h1 h2 : Bool)
    (res : Except Unit Unit) (s : RFState) :
    rfHandleSubmit sp u h1 res s = rfHandleSubmit sp u h2 res s ∧
    rfSubmitDisabled true s = true :=
  ⟨rfl, by simp [rfSubmitDisabled]⟩
